import Mathlib

/-!
Verification of the incremental indexing engine of the zotero-rag backend.

The definitions below are a shallow embedding of the Python sources:
  * `backend/services/chunking.py`   — the sentence-accumulating text chunker;
  * `backend/db/vector_store.py`     — the chunk store, deduplication index and
                                       library metadata store (Qdrant payloads
                                       modelled as explicit record lists);
  * `backend/services/document_processor.py` — the indexing orchestrator.

External collaborators are modelled as data or as function parameters:
spaCy sentence segmentation is a parameter `seg : String → List SpacySent`;
the embedding provider is a parameter that may fail (`Except`), mirroring a
raised exception; PDF download and text extraction results are carried on the
modelled attachment records; SHA-256 is modelled as an injective stand-in
(collision-free idealization).  Machine floats never influence control flow in
the sources, so embedding vectors are modelled as `List Int`.
-/

/-- A spaCy sentence as consumed by `TextChunker.chunk_text`
(`sent.text` and `sent.start_char`). -/
structure SpacySent where
  text : String
  start_char : Nat
deriving Repr, DecidableEq

/-- Model of `TextChunk` from `backend/services/chunking.py`. -/
structure TextChunk where
  text : String
  page_number : Option Nat
  chunk_index : Nat
  start_char : Nat
  end_char : Nat
deriving Repr, DecidableEq

/-- Python `str.strip()` — drop leading and trailing whitespace —
implemented over the character list so that it evaluates by kernel
reduction (the built-in `String.trim` is extern-opaque). -/
def py_strip (s : String) : String :=
  ⟨((s.data.dropWhile Char.isWhitespace).reverse.dropWhile
      Char.isWhitespace).reverse⟩

/-- Python `str.split()` — split on whitespace runs, dropping empties. -/
def py_split_ws (s : String) : List String :=
  ((s.data.splitOnP Char.isWhitespace).filter (fun l => ¬ l = [])).map
    (fun l => String.mk l)

/-- Model of `TextChunk.text_preview`: first 5 whitespace-separated tokens. -/
def text_preview (t : String) : String :=
  String.intercalate " " ((py_split_ws t).take 5)

/-- SHA-256 hex digest, modelled as an injective stand-in: the digest of a
byte string is the byte string itself (collision-free idealization of
`hashlib.sha256(data).hexdigest()`). -/
def sha256_hex (data : String) : String := data

/-- The sentence-accumulation loop of `TextChunker.chunk_text`
(`chunking.py` lines 172-222).  Arguments mirror the Python locals:
the remaining sentences, `current_chunk_text`, `current_chunk_start`,
`chunk_sentences`, and the accumulated `chunks` list. -/
def chunkLoop (maxSize overlapSize : Nat) (pageNumber : Option Nat)
    (startIndex : Nat) :
    List SpacySent → String → Nat → List String → List TextChunk →
      List TextChunk
  | [], currentChunkText, currentChunkStart, _, chunks =>
      if currentChunkText = "" then chunks
      else chunks ++ [{ text := currentChunkText, page_number := pageNumber,
                        chunk_index := startIndex + chunks.length,
                        start_char := currentChunkStart,
                        end_char := currentChunkStart + currentChunkText.length }]
  | sent :: rest, currentChunkText, currentChunkStart, chunkSentences, chunks =>
      let sentText := py_strip sent.text
      if sentText = "" then
        chunkLoop maxSize overlapSize pageNumber startIndex rest
          currentChunkText currentChunkStart chunkSentences chunks
      else
        let potentialText :=
          if currentChunkText = "" then sentText
          else currentChunkText ++ " " ++ sentText
        if maxSize < potentialText.length ∧ currentChunkText ≠ "" then
          let chunks' := chunks ++
            [{ text := currentChunkText, page_number := pageNumber,
               chunk_index := startIndex + chunks.length,
               start_char := currentChunkStart,
               end_char := currentChunkStart + currentChunkText.length }]
          match chunkSentences.getLast? with
          | some overlapText =>
            if overlapText.length < overlapSize then
              let newText := overlapText ++ " " ++ sentText
              let newStart := currentChunkStart + newText.length -
                overlapText.length - sentText.length - 1
              chunkLoop maxSize overlapSize pageNumber startIndex rest
                newText newStart [overlapText, sentText] chunks'
            else
              chunkLoop maxSize overlapSize pageNumber startIndex rest
                sentText sent.start_char [sentText] chunks'
          | none =>
              chunkLoop maxSize overlapSize pageNumber startIndex rest
                sentText sent.start_char [sentText] chunks'
        else
          let newStart :=
            if currentChunkText = "" then sent.start_char else currentChunkStart
          chunkLoop maxSize overlapSize pageNumber startIndex rest
            potentialText newStart (chunkSentences ++ [sentText]) chunks

/-- Model of `TextChunker.chunk_text`: empty / whitespace-only input yields `[]`;
no sentences yields the whole (stripped) text as a single fallback chunk;
otherwise the accumulation loop runs from an empty current chunk. -/
def chunk_text (seg : String → List SpacySent) (maxSize overlapSize : Nat)
    (text : String) (pageNumber : Option Nat) (startIndex : Nat) :
    List TextChunk :=
  if text = "" ∨ py_strip text = "" then []
  else
    let sentences := seg text
    if sentences = [] then
      [{ text := py_strip text, page_number := pageNumber,
         chunk_index := startIndex, start_char := 0,
         end_char := text.length }]
    else
      chunkLoop maxSize overlapSize pageNumber startIndex sentences "" 0 [] []

/-- Model of `TextChunker.chunk_pages`: chunk the pages in order, with sequential
chunk indices continuing across page boundaries. -/
def chunk_pages (seg : String → List SpacySent) (maxSize overlapSize : Nat)
    (pages : List (Nat × String)) : List TextChunk :=
  (pages.foldl
    (fun (acc : List TextChunk × Nat) pg =>
      let pageChunks :=
        chunk_text seg maxSize overlapSize pg.2 (some pg.1) acc.2
      (acc.1 ++ pageChunks, acc.2 + pageChunks.length))
    ([], 0)).1

/-!  ## Data model (`backend/models/library.py`, `backend/models/document.py`)

`last_indexed_at` timestamps are opaque strings supplied by the environment;
`elapsed_seconds` (a wall-clock float) is not modelled.  Display-only fields
(title, authors, year) do not influence any control flow and are omitted from
the stored payload model.  -/

/-- Model of `LibraryIndexMetadata` (`backend/models/library.py`). -/
structure LibraryIndexMetadata where
  library_id : String
  library_type : String
  library_name : String
  last_indexed_version : Nat := 0
  last_indexed_at : String := ""
  total_items_indexed : Nat := 0
  total_chunks : Nat := 0
  indexing_mode : String := "incremental"
  force_reindex : Bool := false
  schema_version : Nat := 1
deriving Repr, DecidableEq

/-- Model of `DocumentMetadata` (`backend/models/document.py`), restricted to the
fields the orchestrator and store read. -/
structure DocumentMetadata where
  library_id : String
  item_key : String
  attachment_key : Option String := none
deriving Repr, DecidableEq

/-- Model of `ChunkMetadata` (`backend/models/document.py`). -/
structure ChunkMetadata where
  chunk_id : String
  document_metadata : DocumentMetadata
  page_number : Option Nat := none
  text_preview : String
  chunk_index : Nat
  content_hash : String
  item_version : Nat := 0
  attachment_version : Nat := 0
  indexed_at : String := ""
  zotero_modified : String := ""
  schema_version : Nat := 2
deriving Repr, DecidableEq

/-- Model of `DocumentChunk` (`backend/models/document.py`).  `embedding` is
`Optional[list[float]]` in the source; the vector's numeric contents never
influence control flow, so they are modelled as `List Int`. -/
structure DocumentChunk where
  text : String
  metadata : ChunkMetadata
  embedding : Option (List Int) := none
deriving Repr, DecidableEq

/-- Model of `DeduplicationRecord` (`backend/models/document.py`). -/
structure DeduplicationRecord where
  content_hash : String
  library_id : String
  item_key : String
  relation_uri : Option String := none
deriving Repr, DecidableEq

/-!  ## Chunk store / deduplication index / metadata store
(`backend/db/vector_store.py`)

Qdrant collections are modelled as lists of payload records; `uuid.uuid4()`
point ids are modelled by a monotone counter carried in the state, and the
deterministic `uuid5(namespace, library_id)` keying of metadata points is
modelled by keying metadata records on `library_id` itself (uuid5 is
injective). -/

/-- A point of the `document_chunks` collection: the payload fields written
by `add_chunk` / `add_chunks_batch` that the core reads back.
`payload_item_version = none` models a legacy (schema v1) payload in which
the `item_version` key is absent; every payload written by this code carries
`some`. -/
structure StoredPoint where
  id : Nat
  payload_library_id : String
  payload_item_key : String
  payload_attachment_key : Option String
  payload_text : String
  payload_text_preview : String
  payload_chunk_index : Nat
  payload_page_number : Option Nat
  payload_content_hash : String
  payload_item_version : Option Nat
  payload_attachment_version : Nat
deriving Repr, DecidableEq

/-- A point of the `deduplication` collection. -/
structure DedupPoint where
  id : Nat
  content_hash : String
  library_id : String
  item_key : String
  relation_uri : Option String
deriving Repr, DecidableEq

/-- The persistent state of `VectorStore`: the three collections plus the
id counter standing in for `uuid.uuid4()`. -/
structure VectorStoreState where
  chunks : List StoredPoint := []
  dedup : List DedupPoint := []
  metadata : List LibraryIndexMetadata := []
  next_id : Nat := 0
deriving Repr, DecidableEq

/-- Payload construction shared by `add_chunk` and `add_chunks_batch`. -/
def mkStoredPoint (pid : Nat) (c : DocumentChunk) : StoredPoint :=
  { id := pid,
    payload_library_id := c.metadata.document_metadata.library_id,
    payload_item_key := c.metadata.document_metadata.item_key,
    payload_attachment_key := c.metadata.document_metadata.attachment_key,
    payload_text := c.text,
    payload_text_preview := c.metadata.text_preview,
    payload_chunk_index := c.metadata.chunk_index,
    payload_page_number := c.metadata.page_number,
    payload_content_hash := c.metadata.content_hash,
    payload_item_version := some c.metadata.item_version,
    payload_attachment_version := c.metadata.attachment_version }

/-- Model of `VectorStore.add_chunk`: raises `ValueError` when the chunk has no
embedding, otherwise upserts one point and returns its id. -/
def add_chunk (s : VectorStoreState) (c : DocumentChunk) :
    Except String (VectorStoreState × Nat) :=
  if c.embedding = none then .error "Chunk must have an embedding"
  else
    .ok ({ s with
            chunks := s.chunks ++ [mkStoredPoint s.next_id c],
            next_id := s.next_id + 1 },
         s.next_id)

/-- The per-chunk loop of `VectorStore.add_chunks_batch`: chunks without an
embedding are skipped with a logged warning (no error is raised); the rest
become points with fresh ids. -/
def add_chunks_batch_loop :
    List DocumentChunk → VectorStoreState → List Nat →
      VectorStoreState × List Nat
  | [], s, ids => (s, ids)
  | c :: rest, s, ids =>
    if c.embedding = none then add_chunks_batch_loop rest s ids
    else
      add_chunks_batch_loop rest
        { s with
            chunks := s.chunks ++ [mkStoredPoint s.next_id c],
            next_id := s.next_id + 1 }
        (ids ++ [s.next_id])

/-- Model of `VectorStore.add_chunks_batch`. -/
def add_chunks_batch (s : VectorStoreState) (cs : List DocumentChunk) :
    VectorStoreState × List Nat :=
  add_chunks_batch_loop cs s []

/-- Model of `VectorStore.check_duplicate`: first point of the deduplication
collection whose `content_hash` matches, if any. -/
def check_duplicate (s : VectorStoreState) (content_hash : String) :
    Option DeduplicationRecord :=
  (s.dedup.find? (fun p => p.content_hash = content_hash)).map
    (fun p => { content_hash := p.content_hash, library_id := p.library_id,
                item_key := p.item_key, relation_uri := p.relation_uri })

/-- Model of `VectorStore.add_deduplication_record`. -/
def add_deduplication_record (s : VectorStoreState)
    (r : DeduplicationRecord) : VectorStoreState :=
  { s with
      dedup := s.dedup ++ [{ id := s.next_id, content_hash := r.content_hash,
                             library_id := r.library_id,
                             item_key := r.item_key,
                             relation_uri := r.relation_uri }],
      next_id := s.next_id + 1 }

/-- Model of `VectorStore.delete_library_chunks`: count, delete by filter, return
the count. -/
def delete_library_chunks (s : VectorStoreState) (library_id : String) :
    VectorStoreState × Nat :=
  let count := (s.chunks.filter
    (fun p => p.payload_library_id = library_id)).length
  ({ s with
      chunks := s.chunks.filter
        (fun p => ¬ p.payload_library_id = library_id) },
   count)

/-- Model of `VectorStore.delete_library_deduplication_records` (defined in the
source but never called by the orchestrator). -/
def delete_library_deduplication_records (s : VectorStoreState)
    (library_id : String) : VectorStoreState × Nat :=
  let count := (s.dedup.filter (fun p => p.library_id = library_id)).length
  ({ s with
      dedup := s.dedup.filter (fun p => ¬ p.library_id = library_id) },
   count)

/-- Model of `VectorStore.get_item_chunks`: scroll with a library+item filter,
bounded by the 1000-point scroll limit. -/
def get_item_chunks (s : VectorStoreState) (library_id item_key : String) :
    List StoredPoint :=
  (s.chunks.filter (fun p =>
    p.payload_library_id = library_id ∧ p.payload_item_key = item_key)).take
    1000

/-- Model of `VectorStore.get_item_version`: the `item_version` payload field of the
item's first chunk; `none` both when the item has no chunks and when the
first chunk is a legacy payload lacking the field. -/
def get_item_version (s : VectorStoreState) (library_id item_key : String) :
    Option Nat :=
  (get_item_chunks s library_id item_key).head?.bind
    (fun p => p.payload_item_version)

/-- Model of `VectorStore.delete_item_chunks`: look up the item's chunks, delete the
points by id, return how many. -/
def delete_item_chunks (s : VectorStoreState) (library_id item_key : String) :
    VectorStoreState × Nat :=
  let found := get_item_chunks s library_id item_key
  if found = [] then (s, 0)
  else
    let ids := found.map (fun p => p.id)
    ({ s with chunks := s.chunks.filter (fun p => ¬ p.id ∈ ids) },
     ids.length)

/-- Model of `VectorStore.count_library_chunks`. -/
def count_library_chunks (s : VectorStoreState) (library_id : String) : Nat :=
  (s.chunks.filter (fun p => p.payload_library_id = library_id)).length

/-- Model of `VectorStore.get_library_metadata`: retrieve by the deterministic
uuid5 key, i.e. by `library_id`. -/
def get_library_metadata (s : VectorStoreState) (library_id : String) :
    Option LibraryIndexMetadata :=
  s.metadata.find? (fun m => m.library_id = library_id)

/-- Model of `VectorStore.update_library_metadata`: upsert keyed by the deterministic
uuid5 of `library_id`. -/
def update_library_metadata (s : VectorStoreState)
    (m : LibraryIndexMetadata) : VectorStoreState :=
  if s.metadata.any (fun x => x.library_id = m.library_id) then
    { s with
        metadata := s.metadata.map
          (fun x => if x.library_id = m.library_id then m else x) }
  else
    { s with metadata := s.metadata ++ [m] }

/-- Model of `VectorStore.mark_library_for_reset`. -/
def mark_library_for_reset (s : VectorStoreState) (library_id : String) :
    VectorStoreState :=
  match get_library_metadata s library_id with
  | some m => update_library_metadata s { m with force_reindex := true }
  | none => update_library_metadata s
      { library_id := library_id, library_type := "user",
        library_name := "Unknown", force_reindex := true }

/-!  ## External document source (`backend/zotero/local_api.py`)

The Zotero HTTP API is an external collaborator; each attachment record
carries the results the orchestrator would obtain from it: the raw bytes
returned by `get_attachment_file` (`none` = unavailable) and the page texts
that `PDFExtractor.extract_from_bytes` would produce from those bytes
(`none` = the extractor raises). -/

/-- A child attachment of an item, together with the externally determined
results of downloading and extracting it. -/
structure ZoteroAttachment where
  key : String
  contentType : String
  version : Option Nat := none
  file_bytes : Option String := none
  extracted_pages : Option (List (Nat × String)) := none
deriving Repr, DecidableEq

/-- An item of the source collection (`item["version"]`, `item["data"]`).
`has_data` models whether the raw dictionary carries a `data` entry. -/
structure ZoteroItem where
  key : String
  version : Nat
  itemType : String := "journalArticle"
  dateModified : String := ""
  has_data : Bool := true
  children : List ZoteroAttachment := []
deriving Repr, DecidableEq

/-- The external source collection for one library. -/
structure ZoteroLibrary where
  items : List ZoteroItem := []
deriving Repr, DecidableEq

/-- Model of `ZoteroLocalAPI.get_library_items_since`: all items when no
`since_version` is given, otherwise only items whose version is greater
(the documented `?since` delta-fetch semantics). -/
def get_library_items_since (lib : ZoteroLibrary) (since_version : Option Nat) :
    List ZoteroItem :=
  match since_version with
  | none => lib.items
  | some v => lib.items.filter (fun it => v < it.version)

/-- The run environment: spaCy segmentation, the embedding provider (an
external call that may raise), and the current wall-clock timestamp. -/
structure IndexingEnv where
  seg : String → List SpacySent
  embed : String → Except String (List Int)
  now : String := ""

/-- Model of `EmbeddingService.embed_batch`: one batch call; any failure raises. -/
def embed_batch (env : IndexingEnv) (texts : List String) :
    Except String (List (List Int)) :=
  texts.mapM env.embed

/-!  ## Indexing orchestrator (`backend/services/document_processor.py`)

Loops are modelled as structural recursions over the item / attachment
lists.  A Python exception inside the per-item `try` is modelled by an
`Except.error` result; store mutations performed before the raise are kept
(no rollback), exactly as in the source.  A supplied `progress_callback` is
modelled by the trace of `(current, total)` arguments it would receive. -/

/-- Model of `DocumentProcessor._filter_items_with_pdfs`: drop items without a
`data` entry, drop attachments/notes, keep items having at least one
attachment with content type `application/pdf`. -/
def filter_items_with_pdfs (items : List ZoteroItem) : List ZoteroItem :=
  items.filter (fun it =>
    it.has_data ∧ it.itemType ≠ "attachment" ∧ it.itemType ≠ "note" ∧
      it.children.any (fun att => att.contentType = "application/pdf"))

/-- The `max_items` truncation shared by both modes
(`document_processor.py` lines 181-183 and 274-276): applied only when
`max_items` is given and greater than 0. -/
def apply_max_items (max_items : Option Int) (items : List ZoteroItem) :
    List ZoteroItem :=
  match max_items with
  | some m => if 0 < m then items.take m.toNat else items
  | none => items

/-- Build the `DocumentChunk` list of one attachment
(`document_processor.py` lines 409-432). -/
def build_doc_chunks (env : IndexingEnv) (library_id : String)
    (item : ZoteroItem) (att : ZoteroAttachment) (content_hash : String)
    (chunks : List TextChunk) (embeddings : List (List Int)) :
    List DocumentChunk :=
  ((chunks.zip embeddings).enum).map (fun p =>
    { text := p.2.1.text,
      metadata :=
        { chunk_id := library_id ++ ":" ++ item.key ++ ":" ++ att.key ++
            ":" ++ toString p.1,
          document_metadata :=
            { library_id := library_id, item_key := item.key,
              attachment_key := some att.key },
          page_number := p.2.1.page_number,
          text_preview := text_preview p.2.1.text,
          chunk_index := p.1,
          content_hash := content_hash,
          item_version := item.version,
          attachment_version := att.version.getD item.version,
          indexed_at := env.now,
          zotero_modified := item.dateModified },
      embedding := some p.2.2 })

/-- The attachment loop of `DocumentProcessor._index_item` (lines 361-447).
Returns the store as mutated so far together with either the accumulated
chunk count or the message of a raised exception (download unavailable,
duplicate hit, extraction failure, empty text and empty chunking all
`continue`; only the embedding call raises). -/
def index_item_atts (env : IndexingEnv) (maxSize overlapSize : Nat)
    (library_id : String) (item : ZoteroItem) :
    List ZoteroAttachment → VectorStoreState → Nat →
      VectorStoreState × Except String Nat
  | [], s, total_chunks => (s, .ok total_chunks)
  | att :: rest, s, total_chunks =>
    match att.file_bytes with
    | none => index_item_atts env maxSize overlapSize library_id item rest s
        total_chunks
    | some pdf_bytes =>
      let content_hash := sha256_hex pdf_bytes
      match check_duplicate s content_hash with
      | some _ => index_item_atts env maxSize overlapSize library_id item
          rest s total_chunks
      | none =>
        match att.extracted_pages with
        | none => index_item_atts env maxSize overlapSize library_id item
            rest s total_chunks
        | some pages =>
          if pages = [] then
            index_item_atts env maxSize overlapSize library_id item rest s
              total_chunks
          else
            let chunks := chunk_pages env.seg maxSize overlapSize pages
            if chunks = [] then
              index_item_atts env maxSize overlapSize library_id item rest s
                total_chunks
            else
              match embed_batch env (chunks.map (fun c => c.text)) with
              | .error e => (s, .error e)
              | .ok embeddings =>
                let doc_chunks := build_doc_chunks env library_id item att
                  content_hash chunks embeddings
                let s1 := (add_chunks_batch s doc_chunks).1
                let s2 := add_deduplication_record s1
                  { content_hash := content_hash, library_id := library_id,
                    item_key := item.key, relation_uri := none }
                index_item_atts env maxSize overlapSize library_id item rest
                  s2 (total_chunks + doc_chunks.length)

/-- Model of `DocumentProcessor._index_item`: filter the item's attachments to PDFs,
return 0 when there are none, else run the attachment loop. -/
def index_item (env : IndexingEnv) (maxSize overlapSize : Nat)
    (s : VectorStoreState) (item : ZoteroItem) (library_id : String) :
    VectorStoreState × Except String Nat :=
  let pdf_attachments := item.children.filter
    (fun att => att.contentType = "application/pdf")
  if pdf_attachments = [] then (s, .ok 0)
  else index_item_atts env maxSize overlapSize library_id item
    pdf_attachments s 0

/-- Mutable state of the incremental per-item loop
(`document_processor.py` lines 185-228). -/
structure IncLoopState where
  store : VectorStoreState
  items_added : Nat := 0
  items_updated : Nat := 0
  chunks_added : Nat := 0
  chunks_deleted : Nat := 0
  max_version_seen : Nat := 0
  trace : List (Nat × Nat) := []

/-- One iteration of the incremental loop: the `try` body with its three
version-comparison branches, the broad `except` that keeps already
committed writes, and the `finally` that always reports progress. -/
def inc_item_step (env : IndexingEnv) (maxSize overlapSize : Nat)
    (library_id : String) (total_items : Nat) (st : IncLoopState)
    (idx : Nat) (item : ZoteroItem) : IncLoopState :=
  let max_version_seen := max st.max_version_seen item.version
  let st' :=
    match get_item_version st.store library_id item.key with
    | none =>
      match index_item env maxSize overlapSize st.store item library_id with
      | (s', .ok chunk_count) =>
        { st with store := s', items_added := st.items_added + 1,
                  chunks_added := st.chunks_added + chunk_count,
                  max_version_seen := max_version_seen }
      | (s', .error _) =>
        { st with store := s', max_version_seen := max_version_seen }
    | some existing_version =>
      if existing_version < item.version then
        let del := delete_item_chunks st.store library_id item.key
        match index_item env maxSize overlapSize del.1 item library_id with
        | (s', .ok chunk_count) =>
          { st with store := s', items_updated := st.items_updated + 1,
                    chunks_deleted := st.chunks_deleted + del.2,
                    chunks_added := st.chunks_added + chunk_count,
                    max_version_seen := max_version_seen }
        | (s', .error _) =>
          { st with store := s', max_version_seen := max_version_seen }
      else
        { st with max_version_seen := max_version_seen }
  { st' with trace := st'.trace ++ [(idx + 1, total_items)] }

/-- The incremental per-item loop, carrying the 0-based `enumerate` index. -/
def inc_loop (env : IndexingEnv) (maxSize overlapSize : Nat)
    (library_id : String) (total_items : Nat) :
    List ZoteroItem → Nat → IncLoopState → IncLoopState
  | [], _, st => st
  | item :: rest, idx, st =>
    inc_loop env maxSize overlapSize library_id total_items rest (idx + 1)
      (inc_item_step env maxSize overlapSize library_id total_items st idx
        item)

/-- The statistics dictionary returned by a run.  `last_version` is an
`Option` because the incremental early return omits the key;
`elapsed_seconds` (wall-clock) is not modelled; `mode` is added by
`index_library`. -/
structure IndexingStats where
  items_processed : Nat := 0
  items_added : Nat := 0
  items_updated : Nat := 0
  chunks_added : Nat := 0
  chunks_deleted : Nat := 0
  last_version : Option Nat := none
  mode : Option String := none
deriving Repr, DecidableEq

/-- Result of a single-mode run: the mutated store, the mutated metadata
object, the statistics, and the progress-callback trace. -/
structure RunResult where
  store : VectorStoreState
  meta : LibraryIndexMetadata
  stats : IndexingStats
  progress_trace : List (Nat × Nat)

/-- Model of `DocumentProcessor._index_library_incremental`. -/
def index_library_incremental (env : IndexingEnv) (maxSize overlapSize : Nat)
    (s : VectorStoreState) (lib : ZoteroLibrary) (library_id : String)
    (metadata : LibraryIndexMetadata) (max_items : Option Int) : RunResult :=
  let items := get_library_items_since lib (some metadata.last_indexed_version)
  if items = [] then
    { store := s, meta := metadata, stats := {}, progress_trace := [] }
  else
    let items_with_pdfs := apply_max_items max_items
      (filter_items_with_pdfs items)
    let total_items := items_with_pdfs.length
    let final := inc_loop env maxSize overlapSize library_id total_items
      items_with_pdfs 0
      { store := s, max_version_seen := metadata.last_indexed_version,
        trace := [(0, total_items)] }
    { store := final.store,
      meta := { metadata with
                  last_indexed_version := final.max_version_seen,
                  total_items_indexed :=
                    metadata.total_items_indexed + final.items_added },
      stats := { items_processed := items_with_pdfs.length,
                 items_added := final.items_added,
                 items_updated := final.items_updated,
                 chunks_added := final.chunks_added,
                 chunks_deleted := final.chunks_deleted,
                 last_version := some final.max_version_seen },
      progress_trace := final.trace }

/-- Mutable state of the full-mode per-item loop
(`document_processor.py` lines 279-302). -/
structure FullLoopState where
  store : VectorStoreState
  chunks_added : Nat := 0
  max_version_seen : Nat := 0
  trace : List (Nat × Nat) := []

/-- One iteration of the full-mode loop: index the item, swallow any
exception, always report progress. -/
def full_item_step (env : IndexingEnv) (maxSize overlapSize : Nat)
    (library_id : String) (total_items : Nat) (st : FullLoopState)
    (idx : Nat) (item : ZoteroItem) : FullLoopState :=
  let max_version_seen := max st.max_version_seen item.version
  let st' :=
    match index_item env maxSize overlapSize st.store item library_id with
    | (s', .ok chunk_count) =>
      { st with store := s', chunks_added := st.chunks_added + chunk_count,
                max_version_seen := max_version_seen }
    | (s', .error _) =>
      { st with store := s', max_version_seen := max_version_seen }
  { st' with trace := st'.trace ++ [(idx + 1, total_items)] }

/-- The full-mode per-item loop. -/
def full_loop (env : IndexingEnv) (maxSize overlapSize : Nat)
    (library_id : String) (total_items : Nat) :
    List ZoteroItem → Nat → FullLoopState → FullLoopState
  | [], _, st => st
  | item :: rest, idx, st =>
    full_loop env maxSize overlapSize library_id total_items rest (idx + 1)
      (full_item_step env maxSize overlapSize library_id total_items st idx
        item)

/-- Model of `DocumentProcessor._index_library_full`: delete the library's chunk
records (the deduplication records are not touched), fetch all items,
filter, truncate, loop, and overwrite the watermark with the maximum
version seen in this run (starting from 0). -/
def index_library_full (env : IndexingEnv) (maxSize overlapSize : Nat)
    (s : VectorStoreState) (lib : ZoteroLibrary) (library_id : String)
    (metadata : LibraryIndexMetadata) (max_items : Option Int) : RunResult :=
  let del := delete_library_chunks s library_id
  let items := get_library_items_since lib none
  let items_with_pdfs := apply_max_items max_items
    (filter_items_with_pdfs items)
  let total_items := items_with_pdfs.length
  let final := full_loop env maxSize overlapSize library_id total_items
    items_with_pdfs 0
    { store := del.1, max_version_seen := 0, trace := [(0, total_items)] }
  { store := final.store,
    meta := { metadata with
                last_indexed_version := final.max_version_seen,
                total_items_indexed := items_with_pdfs.length },
    stats := { items_processed := items_with_pdfs.length,
               items_added := items_with_pdfs.length,
               items_updated := 0,
               chunks_added := final.chunks_added,
               chunks_deleted := del.2,
               last_version := some final.max_version_seen },
    progress_trace := final.trace }

/-- The mode-selection logic of `DocumentProcessor.index_library`
(lines 99-121), a pure function of the stored metadata and the requested
mode. -/
def select_effective_mode (metadata0 : Option LibraryIndexMetadata)
    (mode : String) : String :=
  match metadata0 with
  | none => "full"
  | some m =>
      if m.force_reindex then "full"
      else if mode = "full" then "full"
      else if mode = "incremental" then "incremental"
      else if 0 < m.last_indexed_version then "incremental" else "full"

/-- The (possibly created, possibly flag-cleared) metadata object the run
works on, mirroring lines 99-121. -/
def prepare_metadata (metadata0 : Option LibraryIndexMetadata)
    (library_id library_type library_name : String) : LibraryIndexMetadata :=
  match metadata0 with
  | none => { library_id := library_id, library_type := library_type,
              library_name := library_name }
  | some m => if m.force_reindex then { m with force_reindex := false } else m

/-- Result of `DocumentProcessor.index_library`. -/
structure IndexLibraryResult where
  store : VectorStoreState
  stats : IndexingStats
  trace : List (Nat × Nat)

/-- Model of `DocumentProcessor.index_library`.  Note: the source function accepts
`library_id`, `library_type`, `library_name`, `mode`, `progress_callback`
and `max_items` — it has no cancellation parameter. -/
def index_library (env : IndexingEnv) (maxSize overlapSize : Nat)
    (s : VectorStoreState) (lib : ZoteroLibrary)
    (library_id library_type library_name mode : String)
    (max_items : Option Int) : IndexLibraryResult :=
  let metadata0 := get_library_metadata s library_id
  let metadata := prepare_metadata metadata0 library_id library_type
    library_name
  let effective_mode := select_effective_mode metadata0 mode
  let run :=
    if effective_mode = "full" then
      index_library_full env maxSize overlapSize s lib library_id metadata
        max_items
    else
      index_library_incremental env maxSize overlapSize s lib library_id
        metadata max_items
  let meta' := { run.meta with
                   indexing_mode := effective_mode,
                   last_indexed_at := env.now,
                   total_chunks := count_library_chunks run.store library_id }
  { store := update_library_metadata run.store meta',
    stats := { run.stats with mode := some effective_mode },
    trace := run.progress_trace }

/-!  ## Concrete example inputs used by counterexamples and witnesses -/

/-- A segmentation that treats the whole page text as one sentence. -/
def exSegWhole : String → List SpacySent := fun t => [{ text := t, start_char := 0 }]

/-- An embedding provider that always succeeds. -/
def exEnv : IndexingEnv :=
  { seg := exSegWhole, embed := fun _ => .ok [1], now := "T1" }

/-- One item with one indexable PDF attachment of non-empty content. -/
def exLib : ZoteroLibrary :=
  { items := [{ key := "I1", version := 7,
                children := [{ key := "A1",
                               contentType := "application/pdf",
                               version := some 7,
                               file_bytes := some "PDFBYTES",
                               extracted_pages := some [(1, "hello")] }] }] }

/-- A store whose only record is library metadata with watermark 5. -/
def exWatermarkStore : VectorStoreState :=
  { metadata := [{ library_id := "L", library_type := "user",
                   library_name := "Lib", last_indexed_version := 5 }] }

/-- The segmentation used by the chunk-size counterexample: two sentences of
lengths 8 and 9. -/
def exSegTwo : String → List SpacySent := fun _ =>
  [{ text := "aaaaaaaa", start_char := 0 }, { text := "bbbbbbbbb", start_char := 9 }]

/-- A chunk submitted without an embedding. -/
def exChunkNoEmb : DocumentChunk :=
  { text := "no-emb",
    metadata := { chunk_id := "L:I1:A1:0",
                  document_metadata := { library_id := "L", item_key := "I1" },
                  text_preview := "no-emb", chunk_index := 0,
                  content_hash := "h0" },
    embedding := none }

/-- A chunk submitted with an embedding. -/
def exChunkEmb : DocumentChunk :=
  { text := "with-emb",
    metadata := { chunk_id := "L:I1:A1:1",
                  document_metadata := { library_id := "L", item_key := "I1" },
                  text_preview := "with-emb", chunk_index := 1,
                  content_hash := "h1" },
    embedding := some [1, 2] }

/-- The `(current, total)` argument sequence the spec's progress contract
describes for a run over `K` items: `(0,K), (1,K), ..., (K,K)`. -/
def progress_trace_spec (K : Nat) : List (Nat × Nat) :=
  (List.range (K + 1)).map (fun i => (i, K))

/-- An embedding provider that always fails, to exercise the caught
per-item exception paths. -/
def exEnvFail : IndexingEnv :=
  { seg := exSegWhole, embed := fun _ => .error "embedding backend down",
    now := "T2" }

/-- Two items, each with one indexable PDF attachment. -/
def exLib2 : ZoteroLibrary :=
  { items := [{ key := "I1", version := 3,
                children := [{ key := "A1",
                               contentType := "application/pdf",
                               version := some 3,
                               file_bytes := some "B1",
                               extracted_pages := some [(1, "first doc")] }] },
              { key := "I2", version := 9,
                children := [{ key := "A2",
                               contentType := "application/pdf",
                               version := some 9,
                               file_bytes := some "B2",
                               extracted_pages := some [(1, "second doc")] }] }] }

/-- One item of version 6, above the example watermark 5. -/
def exLib6 : ZoteroLibrary :=
  { items := [{ key := "I6", version := 6,
                children := [{ key := "A6",
                               contentType := "application/pdf",
                               version := some 6,
                               file_bytes := some "B6",
                               extracted_pages := some [(1, "sixth doc")] }] }] }

/-- A store holding one chunk record for item `I1` indexed at version 10. -/
def exUpdStore : VectorStoreState :=
  { chunks := [{ id := 0, payload_library_id := "L",
                 payload_item_key := "I1",
                 payload_attachment_key := some "A1",
                 payload_text := "old", payload_text_preview := "old",
                 payload_chunk_index := 0, payload_page_number := some 1,
                 payload_content_hash := "OLD",
                 payload_item_version := some 10,
                 payload_attachment_version := 10 }],
    next_id := 1 }

/-- Item `I1` fetched again at version 11 with fresh content. -/
def exItem11 : ZoteroItem :=
  { key := "I1", version := 11,
    children := [{ key := "A1", contentType := "application/pdf",
                   version := some 11, file_bytes := some "NEWBYTES",
                   extracted_pages := some [(1, "hello")] }] }

/-- The incremental-loop state sitting on `exUpdStore`. -/
def exIncState : IncLoopState := { store := exUpdStore }

/-- The stripped, nonempty sentence texts of a segmentation — the sentences
the accumulation loop actually consumes. -/
def trimmed_nonempty (sents : List SpacySent) : List String :=
  (sents.map (fun s => py_strip s.text)).filter (fun t => ¬ t = "")

/-- Space-joined concatenation, the shape of an accumulated chunk text. -/
def join_spaced : List String → String
  | [] => ""
  | [t] => t
  | t :: rest => t ++ " " ++ join_spaced rest

/-!  ## Helper lemmas -/

theorem find?_map_overwrite (l : List LibraryIndexMetadata)
    (m : LibraryIndexMetadata)
    (h : l.any (fun x => x.library_id = m.library_id)) :
    (l.map (fun x => if x.library_id = m.library_id then m else x)).find?
      (fun x => x.library_id = m.library_id) = some m := by
  induction l with
  | nil => simp at h
  | cons a l ih =>
    by_cases ha : a.library_id = m.library_id
    · simp [List.find?_cons, ha]
    · simp only [List.any_cons, ha, decide_False, Bool.false_or] at h
      simp [List.find?_cons, ha, ih h]

theorem find?_append_new (l : List LibraryIndexMetadata)
    (m : LibraryIndexMetadata)
    (h : ¬ l.any (fun x => x.library_id = m.library_id)) :
    (l ++ [m]).find? (fun x => x.library_id = m.library_id) = some m := by
  induction l with
  | nil => simp [List.find?_cons]
  | cons a l ih =>
    simp only [List.any_cons, Bool.or_eq_true, not_or] at h
    have ha : ¬ a.library_id = m.library_id := by
      simpa using h.1
    simp only [List.cons_append, List.find?_cons, ha, decide_False]
    exact ih (by simpa using h.2)

/-- Reading back the metadata just written by the upsert returns it. -/
theorem get_update_metadata (s : VectorStoreState)
    (m : LibraryIndexMetadata) :
    get_library_metadata (update_library_metadata s m) m.library_id
      = some m := by
  unfold get_library_metadata update_library_metadata
  by_cases h : s.metadata.any (fun x => x.library_id = m.library_id)
  · simp only [h, if_true]
    exact find?_map_overwrite s.metadata m h
  · simp only [h, if_false]
    exact find?_append_new s.metadata m (by simpa using h)

/-- A found metadata record carries the looked-up library id. -/
theorem get_library_metadata_id (s : VectorStoreState) (library_id : String)
    (m : LibraryIndexMetadata)
    (h : get_library_metadata s library_id = some m) :
    m.library_id = library_id := by
  unfold get_library_metadata at h
  have := List.find?_some h
  simpa using this

/-- The count `delete_item_chunks` reports is exactly the number of chunk
records the store returns for the item. -/
theorem delete_item_chunks_count (s : VectorStoreState)
    (library_id item_key : String) :
    (delete_item_chunks s library_id item_key).2 =
      (get_item_chunks s library_id item_key).length := by
  unfold delete_item_chunks
  by_cases h : get_item_chunks s library_id item_key = []
  · simp [h]
  · simp [h]

theorem inc_item_step_trace (env : IndexingEnv) (maxSize overlapSize : Nat)
    (library_id : String) (total_items : Nat) (st : IncLoopState)
    (idx : Nat) (item : ZoteroItem) :
    (inc_item_step env maxSize overlapSize library_id total_items st idx
        item).trace = st.trace ++ [(idx + 1, total_items)] := by
  unfold inc_item_step
  rcases h : get_item_version st.store library_id item.key with _ | v
  · rcases hI : index_item env maxSize overlapSize st.store item library_id
      with ⟨s', r⟩
    rcases r with e | n <;> simp [h, hI]
  · by_cases hv : v < item.version
    · rcases hI : index_item env maxSize overlapSize
        (delete_item_chunks st.store library_id item.key).1 item library_id
        with ⟨s', r⟩
      rcases r with e | n <;> simp [h, hv, hI]
    · simp [h, hv]

theorem inc_item_step_max (env : IndexingEnv) (maxSize overlapSize : Nat)
    (library_id : String) (total_items : Nat) (st : IncLoopState)
    (idx : Nat) (item : ZoteroItem) :
    (inc_item_step env maxSize overlapSize library_id total_items st idx
        item).max_version_seen = max st.max_version_seen item.version := by
  unfold inc_item_step
  rcases h : get_item_version st.store library_id item.key with _ | v
  · rcases hI : index_item env maxSize overlapSize st.store item library_id
      with ⟨s', r⟩
    rcases r with e | n <;> simp [h, hI]
  · by_cases hv : v < item.version
    · rcases hI : index_item env maxSize overlapSize
        (delete_item_chunks st.store library_id item.key).1 item library_id
        with ⟨s', r⟩
      rcases r with e | n <;> simp [h, hv, hI]
    · simp [h, hv]

theorem full_item_step_trace (env : IndexingEnv) (maxSize overlapSize : Nat)
    (library_id : String) (total_items : Nat) (st : FullLoopState)
    (idx : Nat) (item : ZoteroItem) :
    (full_item_step env maxSize overlapSize library_id total_items st idx
        item).trace = st.trace ++ [(idx + 1, total_items)] := by
  unfold full_item_step
  rcases hI : index_item env maxSize overlapSize st.store item library_id
    with ⟨s', r⟩
  rcases r with e | n <;> simp [hI]

theorem full_item_step_max (env : IndexingEnv) (maxSize overlapSize : Nat)
    (library_id : String) (total_items : Nat) (st : FullLoopState)
    (idx : Nat) (item : ZoteroItem) :
    (full_item_step env maxSize overlapSize library_id total_items st idx
        item).max_version_seen = max st.max_version_seen item.version := by
  unfold full_item_step
  rcases hI : index_item env maxSize overlapSize st.store item library_id
    with ⟨s', r⟩
  rcases r with e | n <;> simp [hI]

theorem inc_loop_trace (env : IndexingEnv) (maxSize overlapSize : Nat)
    (library_id : String) (total_items : Nat) (items : List ZoteroItem) :
    ∀ (idx : Nat) (st : IncLoopState),
    (inc_loop env maxSize overlapSize library_id total_items items idx
        st).trace =
      st.trace ++ (List.range items.length).map
        (fun j => (idx + 1 + j, total_items)) := by
  induction items with
  | nil => intro idx st; simp [inc_loop]
  | cons item rest ih =>
    intro idx st
    rw [inc_loop, ih, inc_item_step_trace]
    rw [List.append_assoc]
    congr 1
    rw [List.length_cons, List.range_succ_eq_map]
    simp only [List.map_cons, List.map_map, List.singleton_append]
    congr 1
    refine List.map_congr_left ?_
    intro j hj
    simp [Function.comp, Prod.ext_iff]
    omega

theorem inc_loop_max (env : IndexingEnv) (maxSize overlapSize : Nat)
    (library_id : String) (total_items : Nat) (items : List ZoteroItem) :
    ∀ (idx : Nat) (st : IncLoopState),
    st.max_version_seen ≤
      (inc_loop env maxSize overlapSize library_id total_items items idx
        st).max_version_seen := by
  induction items with
  | nil => intro idx st; simp [inc_loop]
  | cons item rest ih =>
    intro idx st
    rw [inc_loop]
    refine le_trans ?_ (ih (idx + 1) _)
    rw [inc_item_step_max]
    exact le_max_left _ _

theorem full_loop_trace (env : IndexingEnv) (maxSize overlapSize : Nat)
    (library_id : String) (total_items : Nat) (items : List ZoteroItem) :
    ∀ (idx : Nat) (st : FullLoopState),
    (full_loop env maxSize overlapSize library_id total_items items idx
        st).trace =
      st.trace ++ (List.range items.length).map
        (fun j => (idx + 1 + j, total_items)) := by
  induction items with
  | nil => intro idx st; simp [full_loop]
  | cons item rest ih =>
    intro idx st
    rw [full_loop, ih, full_item_step_trace]
    rw [List.append_assoc]
    congr 1
    rw [List.length_cons, List.range_succ_eq_map]
    simp only [List.map_cons, List.map_map, List.singleton_append]
    congr 1
    refine List.map_congr_left ?_
    intro j hj
    simp [Function.comp, Prod.ext_iff]
    omega

theorem full_loop_max (env : IndexingEnv) (maxSize overlapSize : Nat)
    (library_id : String) (total_items : Nat) (items : List ZoteroItem) :
    ∀ (idx : Nat) (st : FullLoopState),
    (full_loop env maxSize overlapSize library_id total_items items idx
        st).max_version_seen =
      items.foldl (fun a it => max a it.version) st.max_version_seen := by
  induction items with
  | nil => intro idx st; simp [full_loop]
  | cons item rest ih =>
    intro idx st
    rw [full_loop, ih]
    simp [full_item_step_max]

/-- A run's initial `(0, K)` report followed by one report per item is
exactly the spec's progress sequence. -/
theorem trace_shape (K : Nat) :
    (0, K) :: (List.range K).map (fun j => (0 + 1 + j, K)) =
      progress_trace_spec K := by
  unfold progress_trace_spec
  rw [List.range_succ_eq_map]
  simp only [List.map_cons, List.map_map]
  congr 1
  refine List.map_congr_left ?_
  intro j hj
  simp [Function.comp, Prod.ext_iff]
  omega

theorem str_length_zero_iff (s : String) : s.length = 0 ↔ s = "" := by
  cases s with
  | mk data =>
    constructor
    · intro h
      have hd : data = [] := List.length_eq_zero.mp h
      subst hd
      rfl
    · intro h
      rw [h]
      rfl

theorem str_pos_of_ne (s : String) (h : s ≠ "") : 0 < s.length := by
  rcases Nat.eq_zero_or_pos s.length with h0 | h1
  · exact absurd ((str_length_zero_iff s).mp h0) h
  · exact h1

theorem str_ne_of_append (a b : String) (hb : b ≠ "") :
    a ++ " " ++ b ≠ "" := by
  intro h
  have hlen := congrArg String.length h
  rw [String.length_append, String.length_append] at hlen
  have hsp : (" " : String).length = 1 := rfl
  have h0 : ("" : String).length = 0 := rfl
  rw [hsp, h0] at hlen
  have hbp := str_pos_of_ne b hb
  omega

theorem join_spaced_cons_append (a b : String) (l : List String) :
    join_spaced ((a ++ " " ++ b) :: l) = a ++ " " ++ join_spaced (b :: l) := by
  cases l with
  | nil => rfl
  | cons c rest =>
    show (a ++ " " ++ b) ++ " " ++ join_spaced (c :: rest) =
      a ++ " " ++ (b ++ " " ++ join_spaced (c :: rest))
    simp [String.append_assoc]

/-- The metadata object the run works on never carries the reset flag:
either there was none (fresh record, default `false`), the flag was just
consumed (cleared), or it was already `false`. -/
theorem prepare_metadata_force_false (metadata0 : Option LibraryIndexMetadata)
    (library_id library_type library_name : String) :
    (prepare_metadata metadata0 library_id library_type
        library_name).force_reindex = false := by
  rcases metadata0 with _ | m
  · rfl
  · unfold prepare_metadata
    by_cases hf : m.force_reindex <;> simp [hf]

theorem prepare_metadata_library_id (s : VectorStoreState)
    (library_id library_type library_name : String) :
    (prepare_metadata (get_library_metadata s library_id) library_id
        library_type library_name).library_id = library_id := by
  rcases h : get_library_metadata s library_id with _ | m
  · rfl
  · have hid := get_library_metadata_id s library_id m h
    unfold prepare_metadata
    by_cases hf : m.force_reindex <;> simp [hf, hid]

/-- The incremental run raises the watermark (never lowers it) and leaves
the metadata's identity and reset flag untouched. -/
theorem inc_run_metadata_facts (env : IndexingEnv) (maxSize overlapSize : Nat)
    (s : VectorStoreState) (lib : ZoteroLibrary) (library_id : String)
    (md : LibraryIndexMetadata) (max_items : Option Int) :
    md.last_indexed_version ≤
      (index_library_incremental env maxSize overlapSize s lib library_id md
        max_items).meta.last_indexed_version ∧
    (index_library_incremental env maxSize overlapSize s lib library_id md
        max_items).meta.library_id = md.library_id ∧
    (index_library_incremental env maxSize overlapSize s lib library_id md
        max_items).meta.force_reindex = md.force_reindex := by
  simp only [index_library_incremental]
  by_cases h : get_library_items_since lib (some md.last_indexed_version) = []
  · rw [if_pos h]
    exact ⟨le_refl _, rfl, rfl⟩
  · rw [if_neg h]
    refine ⟨?_, rfl, rfl⟩
    exact inc_loop_max env maxSize overlapSize library_id _ _ 0
      { store := s, max_version_seen := md.last_indexed_version,
        trace := [(0, _)] }

/-- The full run recomputes the watermark from scratch as the running
maximum (seeded with 0) of the versions of the items it processes, and
leaves the metadata's identity and reset flag untouched. -/
theorem full_run_metadata_facts (env : IndexingEnv) (maxSize overlapSize : Nat)
    (s : VectorStoreState) (lib : ZoteroLibrary) (library_id : String)
    (md : LibraryIndexMetadata) (max_items : Option Int) :
    (index_library_full env maxSize overlapSize s lib library_id md
        max_items).meta.last_indexed_version =
      (apply_max_items max_items (filter_items_with_pdfs
        (get_library_items_since lib none))).foldl
        (fun a it => max a it.version) 0 ∧
    (index_library_full env maxSize overlapSize s lib library_id md
        max_items).meta.library_id = md.library_id ∧
    (index_library_full env maxSize overlapSize s lib library_id md
        max_items).meta.force_reindex = md.force_reindex := by
  refine ⟨?_, rfl, rfl⟩
  simp only [index_library_full]
  exact full_loop_max env maxSize overlapSize library_id _ _ 0 _

/-- Reading back the record written by the end-of-run metadata update. -/
theorem written_meta_spec (r : RunResult) (library_id em t : String) (c : Nat)
    (hid : r.meta.library_id = library_id) :
    get_library_metadata
      (update_library_metadata r.store
        { r.meta with indexing_mode := em, last_indexed_at := t,
                      total_chunks := c }) library_id
      = some { r.meta with indexing_mode := em, last_indexed_at := t,
                           total_chunks := c } := by
  have h := get_update_metadata r.store
    { r.meta with indexing_mode := em, last_indexed_at := t,
                  total_chunks := c }
  simpa [hid] using h

/-- Every `index_library` run ends by writing the library metadata; the
record read back afterwards carries a cleared reset flag, the executed
mode, and the watermark computed by the run that executed; an incremental
run never lowers it. -/
theorem index_library_reads_back (env : IndexingEnv)
    (maxSize overlapSize : Nat) (s : VectorStoreState) (lib : ZoteroLibrary)
    (library_id library_type library_name mode : String)
    (max_items : Option Int) :
    ∃ mfin,
      get_library_metadata
        (index_library env maxSize overlapSize s lib library_id library_type
          library_name mode max_items).store library_id = some mfin ∧
      mfin.force_reindex = false ∧
      mfin.indexing_mode =
        select_effective_mode (get_library_metadata s library_id) mode ∧
      (select_effective_mode (get_library_metadata s library_id) mode
          ≠ "full" →
        (prepare_metadata (get_library_metadata s library_id) library_id
          library_type library_name).last_indexed_version ≤
          mfin.last_indexed_version) := by
  simp only [index_library]
  by_cases hful : select_effective_mode (get_library_metadata s library_id)
      mode = "full"
  · rw [if_pos hful]
    refine ⟨_, written_meta_spec _ _ _ _ _ ?_, ?_, rfl, ?_⟩
    · rw [(full_run_metadata_facts env maxSize overlapSize s lib library_id _
        max_items).2.1]
      exact prepare_metadata_library_id s library_id library_type library_name
    · show (index_library_full env maxSize overlapSize s lib library_id _
        max_items).meta.force_reindex = false
      rw [(full_run_metadata_facts env maxSize overlapSize s lib library_id _
        max_items).2.2]
      exact prepare_metadata_force_false _ _ _ _
    · intro hcontra
      exact absurd hful hcontra
  · rw [if_neg hful]
    refine ⟨_, written_meta_spec _ _ _ _ _ ?_, ?_, rfl, ?_⟩
    · rw [(inc_run_metadata_facts env maxSize overlapSize s lib library_id _
        max_items).2.1]
      exact prepare_metadata_library_id s library_id library_type library_name
    · show (index_library_incremental env maxSize overlapSize s lib
        library_id _ max_items).meta.force_reindex = false
      rw [(inc_run_metadata_facts env maxSize overlapSize s lib library_id _
        max_items).2.2]
      exact prepare_metadata_force_false _ _ _ _
    · intro _
      exact (inc_run_metadata_facts env maxSize overlapSize s lib library_id _
        max_items).1

/-- C3 (confirmed): mode selection in `index_library` is a pure function of
the stored library metadata and the requested mode: no stored metadata
implies a full run; stored metadata with `force_reindex` true implies a
full run with the flag false on the metadata written after that run; an
explicit `full` or `incremental` request is used as given (when no reset
flag is pending); a requested `auto` mode yields `incremental` exactly when
`last_indexed_version > 0`, else `full`. -/
theorem mode_selection_determinism (env : IndexingEnv)
    (maxSize overlapSize : Nat) (s : VectorStoreState) (lib : ZoteroLibrary)
    (library_id library_type library_name mode : String)
    (max_items : Option Int) :
    ((index_library env maxSize overlapSize s lib library_id library_type
        library_name mode max_items).stats.mode =
      some (select_effective_mode (get_library_metadata s library_id)
        mode)) ∧
    (get_library_metadata s library_id = none →
      select_effective_mode (get_library_metadata s library_id) mode
        = "full") ∧
    (∀ m, get_library_metadata s library_id = some m →
      m.force_reindex = true →
      select_effective_mode (get_library_metadata s library_id) mode
        = "full") ∧
    (∀ m, get_library_metadata s library_id = some m →
      m.force_reindex = false →
      (mode = "full" →
        select_effective_mode (get_library_metadata s library_id) mode
          = "full") ∧
      (mode = "incremental" →
        select_effective_mode (get_library_metadata s library_id) mode
          = "incremental") ∧
      (mode = "auto" →
        (select_effective_mode (get_library_metadata s library_id) mode
            = "incremental" ↔ 0 < m.last_indexed_version))) ∧
    ((get_library_metadata (index_library env maxSize overlapSize s lib
        library_id library_type library_name mode max_items).store
        library_id).map (fun m => m.force_reindex) = some false) := by
  refine ⟨rfl, ?_, ?_, ?_, ?_⟩
  · intro h
    rw [h]
    rfl
  · intro m hm hf
    rw [hm]
    simp only [select_effective_mode]
    simp [hf]
  · intro m hm hf
    rw [hm]
    simp only [select_effective_mode]
    rw [hf]
    simp only [Bool.false_eq_true, if_false]
    refine ⟨?_, ?_, ?_⟩
    · intro hmode
      rw [hmode, if_pos rfl]
    · intro hmode
      rw [hmode, if_neg (by decide : ¬ ("incremental" : String) = "full"),
        if_pos rfl]
    · intro hmode
      rw [hmode, if_neg (by decide : ¬ ("auto" : String) = "full"),
        if_neg (by decide : ¬ ("auto" : String) = "incremental")]
      by_cases hpos : 0 < m.last_indexed_version
      · rw [if_pos hpos]
        simp [hpos]
      · rw [if_neg hpos]
        constructor
        · intro hcontra
          exact absurd hcontra (by decide)
        · intro hcontra
          exact absurd hcontra hpos
  · obtain ⟨mfin, hget, hforce, -, -⟩ := index_library_reads_back env
      maxSize overlapSize s lib library_id library_type library_name mode
      max_items
    rw [hget]
    simp [hforce]

/-- Witness for C3 at concrete inputs: the stored metadata has watermark 5
and no reset flag, so a requested `auto` resolves to `incremental`; after
the run the written flag is false. -/
theorem mode_selection_determinism_witness :
    (select_effective_mode (get_library_metadata exWatermarkStore "L")
        "auto" = "incremental" ↔
      0 < ({ library_id := "L", library_type := "user",
             library_name := "Lib",
             last_indexed_version := 5 : LibraryIndexMetadata
           }).last_indexed_version) ∧
    ((get_library_metadata (index_library exEnv 512 50 exWatermarkStore {}
        "L" "user" "Lib" "auto" none).store "L").map
      (fun m => m.force_reindex) = some false) := by
  have h := mode_selection_determinism exEnv 512 50 exWatermarkStore {}
    "L" "user" "Lib" "auto" none
  refine ⟨?_, h.2.2.2.2⟩
  exact ((h.2.2.2.1 _ (by decide) (by decide)).2.2 rfl)

/-- C9 (confirmed): every full-mode run reports `items_updated = 0` and
`items_added = items_processed`, both equal to the number of items
surviving the PDF filter and the `max_items` truncation — the statistics
are independent of whether any per-item processing raised a (caught)
exception. -/
theorem full_stats_added_equals_processed (env : IndexingEnv)
    (maxSize overlapSize : Nat) (s : VectorStoreState) (lib : ZoteroLibrary)
    (library_id library_type library_name mode : String)
    (max_items : Option Int)
    (h : select_effective_mode (get_library_metadata s library_id) mode
      = "full") :
    (index_library env maxSize overlapSize s lib library_id library_type
        library_name mode max_items).stats.items_updated = 0 ∧
    (index_library env maxSize overlapSize s lib library_id library_type
        library_name mode max_items).stats.items_added =
      (index_library env maxSize overlapSize s lib library_id library_type
        library_name mode max_items).stats.items_processed ∧
    (index_library env maxSize overlapSize s lib library_id library_type
        library_name mode max_items).stats.items_processed =
      (apply_max_items max_items (filter_items_with_pdfs
        (get_library_items_since lib none))).length := by
  simp only [index_library]
  rw [h, if_pos rfl]
  exact ⟨rfl, rfl, rfl⟩

/-- Witness for C9: two items, the embedding provider down for both, so
both items raise caught exceptions; the run still reports
`items_added = items_processed = 2` and `items_updated = 0`. -/
theorem full_stats_added_equals_processed_witness :
    (index_library exEnvFail 512 50 {} exLib2 "L" "user" "Lib" "full"
        none).stats.items_updated = 0 ∧
    (index_library exEnvFail 512 50 {} exLib2 "L" "user" "Lib" "full"
        none).stats.items_added =
      (index_library exEnvFail 512 50 {} exLib2 "L" "user" "Lib" "full"
        none).stats.items_processed ∧
    (index_library exEnvFail 512 50 {} exLib2 "L" "user" "Lib" "full"
        none).stats.items_processed =
      (apply_max_items none (filter_items_with_pdfs
        (get_library_items_since exLib2 none))).length :=
  full_stats_added_equals_processed exEnvFail 512 50 {} exLib2 "L" "user"
    "Lib" "full" none rfl

/-- C10 (confirmed): a supplied `max_items` truncates to the first
`max_items` filtered items only when it is positive; `0` or a negative
value is ignored and every filtered item is processed, in both run modes. -/
theorem max_items_truncation (env : IndexingEnv) (maxSize overlapSize : Nat)
    (s : VectorStoreState) (lib : ZoteroLibrary) (library_id : String)
    (md : LibraryIndexMetadata) (mi : Option Int) (l : List ZoteroItem) :
    (apply_max_items none l = l) ∧
    (∀ m : Int, m ≤ 0 → apply_max_items (some m) l = l) ∧
    (∀ m : Int, 0 < m → apply_max_items (some m) l = l.take m.toNat) ∧
    ((index_library_full env maxSize overlapSize s lib library_id md
        mi).stats.items_processed =
      (apply_max_items mi (filter_items_with_pdfs
        (get_library_items_since lib none))).length) ∧
    ((index_library_incremental env maxSize overlapSize s lib library_id md
        mi).stats.items_processed =
      (apply_max_items mi (filter_items_with_pdfs
        (get_library_items_since lib
          (some md.last_indexed_version)))).length) := by
  refine ⟨rfl, ?_, ?_, rfl, ?_⟩
  · intro m hm
    simp only [apply_max_items]
    rw [if_neg (by omega : ¬ (0 : Int) < m)]
  · intro m hm
    simp only [apply_max_items]
    rw [if_pos hm]
  · simp only [index_library_incremental]
    by_cases h : get_library_items_since lib (some md.last_indexed_version)
        = []
    · rw [if_pos h, h]
      show 0 = (apply_max_items mi (filter_items_with_pdfs [])).length
      cases mi with
      | none => rfl
      | some m =>
        simp only [apply_max_items]
        by_cases h0 : (0 : Int) < m
        · rw [if_pos h0]
          simp [filter_items_with_pdfs]
        · rw [if_neg h0]
          rfl
    · rw [if_neg h]

/-- Witness for C10: a positive bound takes a prefix, a zero and a negative
bound are ignored. -/
theorem max_items_truncation_witness :
    (apply_max_items (some 1) exLib2.items = exLib2.items.take
      (Int.toNat 1)) ∧
    (apply_max_items (some 0) exLib2.items = exLib2.items) ∧
    (apply_max_items (some (-3)) exLib2.items = exLib2.items) := by
  have h := max_items_truncation exEnv 512 50 {} exLib2 "L" {
    library_id := "L", library_type := "user", library_name := "Lib" } none
    exLib2.items
  exact ⟨h.2.2.1 1 (by omega), h.2.1 0 (by omega), h.2.1 (-3) (by omega)⟩

/-- C5 (code_bug): `DocumentProcessor.index_library` has no cancellation
parameter at all — its only caller
(`backend/api/indexing.py`, `index_library_task`, line 135) passes
`cancellation_check=...`, which the function signature
(`document_processor.py` lines 69-77) rejects with a `TypeError` — and
neither loop consults any predicate between items: every run reports
progress for every single filtered item, so no early stop exists.  The
trace length below is always the full item count plus the initial report
(or zero reports on the incremental early return). -/
theorem no_cancellation_point (env : IndexingEnv) (maxSize overlapSize : Nat)
    (s : VectorStoreState) (lib : ZoteroLibrary) (library_id : String)
    (md : LibraryIndexMetadata) (mi : Option Int) :
    ((index_library_full env maxSize overlapSize s lib library_id md
        mi).progress_trace.length =
      (apply_max_items mi (filter_items_with_pdfs
        (get_library_items_since lib none))).length + 1) ∧
    ((index_library_incremental env maxSize overlapSize s lib library_id md
        mi).progress_trace.length =
      if get_library_items_since lib (some md.last_indexed_version) = []
      then 0
      else (apply_max_items mi (filter_items_with_pdfs
        (get_library_items_since lib
          (some md.last_indexed_version)))).length + 1) := by
  constructor
  · simp only [index_library_full]
    rw [full_loop_trace]
    simp only [List.length_append, List.length_map, List.length_range,
      List.length_cons, List.length_nil]
    omega
  · simp only [index_library_incremental]
    by_cases h : get_library_items_since lib (some md.last_indexed_version)
        = []
    · rw [if_pos h, if_pos h]
      rfl
    · rw [if_neg h, if_neg h]
      rw [inc_loop_trace]
      simp only [List.length_append, List.length_map, List.length_range,
        List.length_cons, List.length_nil]
      omega

/-- C1 (counterexample): a full run recomputes the watermark from 0, so
when the fetched collection is empty the run writes `0` over the stored
watermark `5` — the stored `last_indexed_version` decreases across runs. -/
theorem full_run_lowers_watermark :
    (get_library_metadata exWatermarkStore "L").map
      (fun m => m.last_indexed_version) = some 5 ∧
    (get_library_metadata (index_library exEnv 512 50 exWatermarkStore {}
        "L" "user" "Lib" "full" none).store "L").map
      (fun m => m.last_indexed_version) = some 0 := by
  constructor
  · rfl
  · rfl

/-- C1 (amended): an incremental run never lowers the stored watermark;
a full run instead recomputes it from scratch as the maximum version among
the items it processes (seeded with 0), which can be lower than the stored
value.  The incremental part is proved here at the `index_library` level. -/
theorem watermark_monotone_incremental_amended (env : IndexingEnv)
    (maxSize overlapSize : Nat) (s : VectorStoreState) (lib : ZoteroLibrary)
    (library_id library_type library_name mode : String)
    (max_items : Option Int) (v : Nat)
    (hv : (get_library_metadata s library_id).map
      (fun m => m.last_indexed_version) = some v)
    (hmode : select_effective_mode (get_library_metadata s library_id) mode
      ≠ "full") :
    ∃ w,
      (get_library_metadata (index_library env maxSize overlapSize s lib
          library_id library_type library_name mode max_items).store
        library_id).map (fun m => m.last_indexed_version) = some w ∧
      v ≤ w := by
  obtain ⟨mfin, hget, -, -, hle⟩ := index_library_reads_back env maxSize
    overlapSize s lib library_id library_type library_name mode max_items
  refine ⟨mfin.last_indexed_version, ?_, ?_⟩
  · rw [hget]
    rfl
  · have hprep : (prepare_metadata (get_library_metadata s library_id)
        library_id library_type library_name).last_indexed_version = v := by
      rcases hm : get_library_metadata s library_id with _ | m
      · rw [hm] at hv
        simp at hv
      · rw [hm] at hv
        simp at hv
        have hforce : m.force_reindex = false := by
          cases hf : m.force_reindex
          · rfl
          · exfalso
            apply hmode
            rw [hm]
            simp only [select_effective_mode]
            rw [hf]
            simp
        simp only [prepare_metadata]
        rw [hforce]
        simp [hv]
    rw [← hprep]
    exact hle hmode

/-- Witness for C1 (amended): watermark 5, a delta item of version 6, a
requested `auto` resolving to incremental; the written watermark is ≥ 5. -/
theorem watermark_monotone_incremental_amended_witness :
    5 ≤ (((get_library_metadata (index_library exEnv 512 50
        exWatermarkStore exLib6 "L" "user" "Lib" "auto" none).store
        "L").map (fun m => m.last_indexed_version)).getD 0) := by
  obtain ⟨w, hw, hle⟩ := watermark_monotone_incremental_amended exEnv 512
    50 exWatermarkStore exLib6 "L" "user" "Lib" "auto" none 5 (by decide)
    (by decide)
  rw [hw]
  simpa using hle

/-- C2 (code_bug): the full run deletes only the library's chunk records
(`document_processor.py` line 256) and never its deduplication records, so
an immediate second full run sees every attachment's content hash in the
deduplication index, skips them all, and leaves the library with 0 chunks:
the first run ends with 1 chunk and `chunks_added = 1`, the second with
`chunks_added = 0` and 0 chunks, contradicting full-mode idempotence
(the watermark does repeat, the chunk count does not). -/
theorem full_rerun_leaves_empty_library :
    (index_library exEnv 512 50 {} exLib "L" "user" "Lib" "full"
        none).stats.chunks_added = 1 ∧
    count_library_chunks (index_library exEnv 512 50 {} exLib "L" "user"
        "Lib" "full" none).store "L" = 1 ∧
    (index_library exEnv 512 50 (index_library exEnv 512 50 {} exLib "L"
        "user" "Lib" "full" none).store exLib "L" "user" "Lib" "full"
        none).stats.chunks_added = 0 ∧
    count_library_chunks (index_library exEnv 512 50 (index_library exEnv
        512 50 {} exLib "L" "user" "Lib" "full" none).store exLib "L"
        "user" "Lib" "full" none).store "L" = 0 ∧
    (index_library exEnv 512 50 {} exLib "L" "user" "Lib" "full"
        none).stats.last_version = some 7 ∧
    (index_library exEnv 512 50 (index_library exEnv 512 50 {} exLib "L"
        "user" "Lib" "full" none).store exLib "L" "user" "Lib" "full"
        none).stats.last_version = some 7 ∧
    ((index_library exEnv 512 50 {} exLib "L" "user" "Lib" "full"
        none).store.dedup.map (fun p => p.content_hash) = ["PDFBYTES"]) ∧
    ((index_library exEnv 512 50 (index_library exEnv 512 50 {} exLib "L"
        "user" "Lib" "full" none).store exLib "L" "user" "Lib" "full"
        none).store.dedup.map (fun p => p.content_hash) = ["PDFBYTES"]) := by
  refine ⟨?_, ?_, ?_, ?_, ?_, ?_, ?_, ?_⟩ <;> rfl

/-- C8 (counterexample): an incremental run whose delta fetch returns no
items takes the early return before the initial progress report, so a
supplied callback is never invoked — there is no `(0, K)` first invocation
and `i` never reaches `K`. -/
theorem empty_delta_skips_progress_callback :
    (index_library exEnv 512 50 exWatermarkStore {} "L" "user" "Lib"
        "auto" none).stats.mode = some "incremental" ∧
    (index_library exEnv 512 50 exWatermarkStore {} "L" "user" "Lib"
        "auto" none).trace = [] := by
  constructor
  · rfl
  · rfl

/-- C6 (counterexample): a batch containing a chunk without an embedding is
accepted by `add_chunks_batch` without any error — the function's type has
no error outcome — and the offending chunk is silently dropped while the
embedded one is persisted. -/
theorem batch_missing_embedding_dropped_silently :
    ((add_chunks_batch {} [exChunkNoEmb, exChunkEmb]).1.chunks.map
      (fun p => p.payload_text) = ["with-emb"]) ∧
    (add_chunks_batch {} [exChunkNoEmb, exChunkEmb]).2.length = 1 := by
  constructor
  · rfl
  · rfl

/-- C7 (counterexample): with maximum size 10 and overlap budget 50, two
sentences of lengths 8 and 9 (both within the maximum) produce a second
chunk `"aaaaaaaa bbbbbbbbb"` of length 18 > 10: the overlap seeding joins
the previous chunk's final sentence with the next sentence without
re-checking the maximum, so a chunk exceeds the maximum although no single
sentence does. -/
theorem overlap_chunk_exceeds_max :
    ((chunk_text exSegTwo 10 50 "aaaaaaaa bbbbbbbbb" none 0).map
      (fun c => c.text.length) = [8, 18]) ∧
    ((exSegTwo "aaaaaaaa bbbbbbbbb").map
      (fun s => (py_strip s.text).length) = [8, 9]) := by
  constructor
  · rfl
  · rfl

/-- C4 (confirmed): one iteration of the incremental loop, for an item
whose processing raises no exception: no stored version → processed as
added (`items_added` +1, chunks stored on top of the current store);
stored < fetched → its N existing chunk records are deleted before it is
reprocessed, `items_updated` +1 and `chunks_deleted` +N; stored ≥ fetched →
no-op (store and all counters unchanged). -/
theorem incremental_version_comparison (env : IndexingEnv)
    (maxSize overlapSize : Nat) (library_id : String)
    (total_items idx : Nat) (st : IncLoopState) (item : ZoteroItem) :
    ((get_item_version st.store library_id item.key = none →
      ∀ n, (index_item env maxSize overlapSize st.store item library_id).2
          = .ok n →
        (inc_item_step env maxSize overlapSize library_id total_items st
            idx item).items_added = st.items_added + 1 ∧
        (inc_item_step env maxSize overlapSize library_id total_items st
            idx item).items_updated = st.items_updated ∧
        (inc_item_step env maxSize overlapSize library_id total_items st
            idx item).chunks_added = st.chunks_added + n ∧
        (inc_item_step env maxSize overlapSize library_id total_items st
            idx item).chunks_deleted = st.chunks_deleted ∧
        (inc_item_step env maxSize overlapSize library_id total_items st
            idx item).store =
          (index_item env maxSize overlapSize st.store item
            library_id).1)) ∧
    (∀ v, get_item_version st.store library_id item.key = some v →
      v < item.version →
      ∀ n, (index_item env maxSize overlapSize
          (delete_item_chunks st.store library_id item.key).1 item
          library_id).2 = .ok n →
        (inc_item_step env maxSize overlapSize library_id total_items st
            idx item).items_updated = st.items_updated + 1 ∧
        (inc_item_step env maxSize overlapSize library_id total_items st
            idx item).items_added = st.items_added ∧
        (inc_item_step env maxSize overlapSize library_id total_items st
            idx item).chunks_deleted = st.chunks_deleted +
          (get_item_chunks st.store library_id item.key).length ∧
        (inc_item_step env maxSize overlapSize library_id total_items st
            idx item).chunks_added = st.chunks_added + n ∧
        (inc_item_step env maxSize overlapSize library_id total_items st
            idx item).store =
          (index_item env maxSize overlapSize
            (delete_item_chunks st.store library_id item.key).1 item
            library_id).1) ∧
    (∀ v, get_item_version st.store library_id item.key = some v →
      item.version ≤ v →
      (inc_item_step env maxSize overlapSize library_id total_items st
          idx item).store = st.store ∧
      (inc_item_step env maxSize overlapSize library_id total_items st
          idx item).items_added = st.items_added ∧
      (inc_item_step env maxSize overlapSize library_id total_items st
          idx item).items_updated = st.items_updated ∧
      (inc_item_step env maxSize overlapSize library_id total_items st
          idx item).chunks_added = st.chunks_added ∧
      (inc_item_step env maxSize overlapSize library_id total_items st
          idx item).chunks_deleted = st.chunks_deleted) := by
  refine ⟨?_, ?_, ?_⟩
  · intro h n hok
    rcases hI : index_item env maxSize overlapSize st.store item library_id
      with ⟨s2, r⟩
    rw [hI] at hok
    simp at hok
    subst hok
    refine ⟨?_, ?_, ?_, ?_, ?_⟩ <;> simp [inc_item_step, h, hI]
  · intro v hsome hlt n hok
    rcases hI : index_item env maxSize overlapSize
      (delete_item_chunks st.store library_id item.key).1 item library_id
      with ⟨s2, r⟩
    rw [hI] at hok
    simp at hok
    subst hok
    have hdel := delete_item_chunks_count st.store library_id item.key
    refine ⟨?_, ?_, ?_, ?_, ?_⟩ <;>
      simp [inc_item_step, hsome, hlt, hI, hdel]
  · intro v hsome hge
    have hnlt : ¬ v < item.version := not_lt.mpr hge
    refine ⟨?_, ?_, ?_, ?_, ?_⟩ <;> simp [inc_item_step, hsome, hnlt]

/-- Witness for C4: item `I1` stored at version 10 with one chunk record,
fetched at version 11; the step deletes that record, reprocesses the item,
and reports `items_updated` +1, `chunks_deleted` +1. -/
theorem incremental_version_comparison_witness :
    (inc_item_step exEnv 512 50 "L" 1 exIncState 0
        exItem11).items_updated = exIncState.items_updated + 1 ∧
    (inc_item_step exEnv 512 50 "L" 1 exIncState 0
        exItem11).items_added = exIncState.items_added ∧
    (inc_item_step exEnv 512 50 "L" 1 exIncState 0
        exItem11).chunks_deleted = exIncState.chunks_deleted +
      (get_item_chunks exIncState.store "L" exItem11.key).length ∧
    (inc_item_step exEnv 512 50 "L" 1 exIncState 0
        exItem11).chunks_added = exIncState.chunks_added + 1 ∧
    (inc_item_step exEnv 512 50 "L" 1 exIncState 0 exItem11).store =
      (index_item exEnv 512 50
        (delete_item_chunks exIncState.store "L" exItem11.key).1 exItem11
        "L").1 :=
  (incremental_version_comparison exEnv 512 50 "L" 1 0 exIncState
    exItem11).2.1 10 (by rfl) (by decide) 1 (by rfl)

theorem add_chunks_batch_loop_texts (cs : List DocumentChunk) :
    ∀ (s : VectorStoreState) (ids : List Nat),
    (add_chunks_batch_loop cs s ids).1.chunks.map (fun p => p.payload_text)
      = s.chunks.map (fun p => p.payload_text) ++
        (cs.filter (fun c => ¬ c.embedding = none)).map (fun c => c.text) := by
  induction cs with
  | nil =>
    intro s ids
    simp [add_chunks_batch_loop]
  | cons c rest ih =>
    intro s ids
    by_cases hc : c.embedding = none
    · simp [add_chunks_batch_loop, hc, ih]
    · simp [add_chunks_batch_loop, hc, ih, mkStoredPoint]

/-- C6 (amended): the single-chunk `add_chunk` rejects a chunk without an
embedding with a `ValueError`; the batch path `add_chunks_batch` — the one
the orchestrator uses — never raises: it silently skips embedding-less
chunks (with only a logged warning) and persists exactly the chunks that
carry embeddings, in order. -/
theorem embedding_validation_amended (s : VectorStoreState)
    (cs : List DocumentChunk) (c : DocumentChunk) :
    ((add_chunks_batch s cs).1.chunks.map (fun p => p.payload_text) =
      s.chunks.map (fun p => p.payload_text) ++
        (cs.filter (fun c => ¬ c.embedding = none)).map (fun c => c.text)) ∧
    (c.embedding = none →
      add_chunk s c = .error "Chunk must have an embedding") ∧
    (c.embedding ≠ none →
      add_chunk s c = .ok ({ s with
          chunks := s.chunks ++ [mkStoredPoint s.next_id c],
          next_id := s.next_id + 1 }, s.next_id)) := by
  refine ⟨?_, ?_, ?_⟩
  · show (add_chunks_batch_loop cs s []).1.chunks.map
      (fun p => p.payload_text) = _
    exact add_chunks_batch_loop_texts cs s []
  · intro h
    simp [add_chunk, h]
  · intro h
    simp [add_chunk, h]

/-- Witness for C6 (amended): the concrete embedding-less chunk is rejected
by `add_chunk` with the `ValueError` message. -/
theorem embedding_validation_amended_witness :
    add_chunk {} exChunkNoEmb = .error "Chunk must have an embedding" :=
  (embedding_validation_amended {} [] exChunkNoEmb).2.1 rfl

/-- C8 (amended): in full mode always, and in incremental mode whenever
the delta fetch is non-empty, a supplied progress callback receives
exactly `(0,K), (1,K), ..., (K,K)` over the `K` filtered items: `(0,K)`
before processing begins, one invocation after every item regardless of
outcome, non-decreasing, reaching `K` exactly once at the end.  An
incremental run whose delta fetch returns no items invokes the callback
zero times (see the counterexample). -/
theorem progress_contract_amended (env : IndexingEnv)
    (maxSize overlapSize : Nat) (s : VectorStoreState) (lib : ZoteroLibrary)
    (library_id library_type library_name mode : String)
    (max_items : Option Int) :
    (select_effective_mode (get_library_metadata s library_id) mode = "full"
      → (index_library env maxSize overlapSize s lib library_id
          library_type library_name mode max_items).trace =
        progress_trace_spec (index_library env maxSize overlapSize s lib
          library_id library_type library_name mode
          max_items).stats.items_processed) ∧
    (select_effective_mode (get_library_metadata s library_id) mode ≠ "full"
      → get_library_items_since lib
          (some (prepare_metadata (get_library_metadata s library_id)
            library_id library_type library_name).last_indexed_version)
          ≠ [] →
      (index_library env maxSize overlapSize s lib library_id library_type
          library_name mode max_items).trace =
        progress_trace_spec (index_library env maxSize overlapSize s lib
          library_id library_type library_name mode
          max_items).stats.items_processed) := by
  constructor
  · intro h
    simp only [index_library]
    rw [h, if_pos rfl]
    simp only [index_library_full]
    rw [full_loop_trace]
    rw [List.singleton_append]
    exact trace_shape _
  · intro h hne
    simp only [index_library]
    rw [if_neg h]
    simp only [index_library_incremental]
    rw [if_neg hne]
    rw [inc_loop_trace]
    rw [List.singleton_append]
    exact trace_shape _

/-- Witness for C8 (amended): a full run over one item reports exactly
`(0,1), (1,1)`. -/
theorem progress_contract_amended_witness :
    (index_library exEnv 512 50 {} exLib "L" "user" "Lib" "full"
        none).trace =
      progress_trace_spec (index_library exEnv 512 50 {} exLib "L" "user"
        "Lib" "full" none).stats.items_processed :=
  (progress_contract_amended exEnv 512 50 {} exLib "L" "user" "Lib" "full"
    none).1 rfl

theorem trimmed_nonempty_cons (sent : SpacySent) (rest : List SpacySent) :
    trimmed_nonempty (sent :: rest) =
      if py_strip sent.text = "" then trimmed_nonempty rest
      else py_strip sent.text :: trimmed_nonempty rest := by
  simp only [trimmed_nonempty, List.map_cons, List.filter_cons]
  by_cases h : py_strip sent.text = "" <;> simp [h]

theorem chunkLoop_length_lower (maxSize overlapSize : Nat)
    (pageNumber : Option Nat) (startIndex : Nat) (sents : List SpacySent) :
    ∀ (cur : String) (curStart : Nat) (cs : List String)
      (acc : List TextChunk),
    acc.length ≤ (chunkLoop maxSize overlapSize pageNumber startIndex sents
      cur curStart cs acc).length ∧
    (cur ≠ "" → acc.length + 1 ≤ (chunkLoop maxSize overlapSize pageNumber
      startIndex sents cur curStart cs acc).length) := by
  induction sents with
  | nil =>
    intro cur curStart cs acc
    simp only [chunkLoop]
    by_cases hcur : cur = ""
    · rw [if_pos hcur]
      exact ⟨le_refl _, fun h => absurd hcur h⟩
    · rw [if_neg hcur]
      constructor
      · simp
      · intro _
        simp
  | cons sent rest ih =>
    intro cur curStart cs acc
    simp only [chunkLoop]
    by_cases hst : py_strip sent.text = ""
    · rw [if_pos hst]
      exact ih cur curStart cs acc
    · rw [if_neg hst]
      by_cases hcond : maxSize < (if cur = "" then py_strip sent.text
          else cur ++ " " ++ py_strip sent.text).length ∧ ¬ cur = ""
      · rw [if_pos hcond]
        rcases hcs : cs.getLast? with _ | ov
        · simp only [hcs]
          constructor
          · exact le_trans (by simp) ((ih _ _ _ _).1)
          · intro _
            refine le_trans ?_ ((ih _ _ _ _).1)
            simp
        · simp only [hcs]
          by_cases hov : ov.length < overlapSize
          · rw [if_pos hov]
            constructor
            · exact le_trans (by simp) ((ih _ _ _ _).1)
            · intro _
              refine le_trans ?_ ((ih _ _ _ _).1)
              simp
          · rw [if_neg hov]
            constructor
            · exact le_trans (by simp) ((ih _ _ _ _).1)
            · intro _
              refine le_trans ?_ ((ih _ _ _ _).1)
              simp
      · rw [if_neg hcond]
        by_cases hcur : cur = ""
        · rw [if_pos hcur, if_pos hcur]
          exact ⟨(ih _ _ _ _).1, fun h => absurd hcur h⟩
        · rw [if_neg hcur, if_neg hcur]
          have h2 := (ih (cur ++ " " ++ py_strip sent.text) curStart
            (cs ++ [py_strip sent.text]) acc).2
            (str_ne_of_append cur (py_strip sent.text) hst)
          exact ⟨by omega, fun _ => by omega⟩

theorem chunkLoop_length_bound (maxSize overlapSize : Nat)
    (pageNumber : Option Nat) (startIndex : Nat) (sents : List SpacySent) :
    ∀ (cur : String) (curStart : Nat) (cs : List String)
      (acc : List TextChunk),
    (∀ s ∈ sents, (py_strip s.text).length ≤ maxSize) →
    (cur = "" ∨ cur.length < maxSize + overlapSize + 1) →
    (∀ c ∈ acc, c.text.length < maxSize + overlapSize + 1) →
    ∀ c ∈ chunkLoop maxSize overlapSize pageNumber startIndex sents cur
      curStart cs acc, c.text.length < maxSize + overlapSize + 1 := by
  induction sents with
  | nil =>
    intro cur curStart cs acc _ hcur hacc
    simp only [chunkLoop]
    by_cases h : cur = ""
    · rw [if_pos h]
      exact hacc
    · rw [if_neg h]
      intro c hc
      rcases List.mem_append.mp hc with hmem | hmem
      · exact hacc c hmem
      · rcases List.mem_singleton.mp hmem with rfl
        rcases hcur with hcur | hcur
        · exact absurd hcur h
        · exact hcur
  | cons sent rest ih =>
    intro cur curStart cs acc hsent hcur hacc
    have hsent_head : (py_strip sent.text).length ≤ maxSize :=
      hsent sent (List.mem_cons_self sent rest)
    have hsent_rest : ∀ s ∈ rest, (py_strip s.text).length ≤ maxSize :=
      fun s hs => hsent s (List.mem_cons_of_mem sent hs)
    simp only [chunkLoop]
    by_cases hst : py_strip sent.text = ""
    · rw [if_pos hst]
      exact ih cur curStart cs acc hsent_rest hcur hacc
    · rw [if_neg hst]
      by_cases hcond : maxSize < (if cur = "" then py_strip sent.text
          else cur ++ " " ++ py_strip sent.text).length ∧ ¬ cur = ""
      · rw [if_pos hcond]
        have hcur_bound : cur.length < maxSize + overlapSize + 1 := by
          rcases hcur with hcur | hcur
          · exact absurd hcur hcond.2
          · exact hcur
        have hacc2 : ∀ c ∈ acc ++ [{ text := cur,
                                     page_number := pageNumber,
                                     chunk_index := startIndex + acc.length,
                                     start_char := curStart,
                                     end_char := curStart + cur.length :
                                       TextChunk }],
            c.text.length < maxSize + overlapSize + 1 := by
          intro c hc
          rcases List.mem_append.mp hc with hmem | hmem
          · exact hacc c hmem
          · rcases List.mem_singleton.mp hmem with rfl
            exact hcur_bound
        rcases hcs : cs.getLast? with _ | ov
        · simp only [hcs]
          refine ih _ _ _ _ hsent_rest (Or.inr ?_) hacc2
          omega
        · simp only [hcs]
          by_cases hov : ov.length < overlapSize
          · rw [if_pos hov]
            refine ih _ _ _ _ hsent_rest (Or.inr ?_) hacc2
            rw [String.length_append, String.length_append]
            have hsp : (" " : String).length = 1 := rfl
            omega
          · rw [if_neg hov]
            refine ih _ _ _ _ hsent_rest (Or.inr ?_) hacc2
            omega
      · rw [if_neg hcond]
        by_cases hc0 : cur = ""
        · rw [if_pos hc0, if_pos hc0]
          refine ih _ _ _ _ hsent_rest (Or.inr ?_) hacc
          omega
        · rw [if_neg hc0, if_neg hc0]
          have hpot : (cur ++ " " ++ py_strip sent.text).length ≤ maxSize :=
            by
            by_contra hgt
            push_neg at hgt
            rw [if_neg hc0] at hcond
            exact hcond ⟨hgt, hc0⟩
          refine ih _ _ _ _ hsent_rest (Or.inr ?_) hacc
          omega

theorem chunkLoop_single_chunk (maxSize overlapSize : Nat)
    (pageNumber : Option Nat) (startIndex : Nat) (sents : List SpacySent) :
    ∀ (cur : String) (curStart : Nat) (cs : List String)
      (acc : List TextChunk),
    cur ≠ "" →
    acc.length + 2 ≤ (chunkLoop maxSize overlapSize pageNumber startIndex
      sents cur curStart cs acc).length ∨
    ∃ ch, chunkLoop maxSize overlapSize pageNumber startIndex sents cur
        curStart cs acc = acc ++ [ch] ∧
      ch.text = join_spaced (cur :: trimmed_nonempty sents) ∧
      (ch.text.length ≤ maxSize ∨ trimmed_nonempty sents = []) := by
  induction sents with
  | nil =>
    intro cur curStart cs acc hcur
    simp only [chunkLoop]
    rw [if_neg hcur]
    refine Or.inr ⟨_, rfl, ?_, Or.inr ?_⟩
    · simp [trimmed_nonempty, join_spaced]
    · simp [trimmed_nonempty]
  | cons sent rest ih =>
    intro cur curStart cs acc hcur
    simp only [chunkLoop]
    by_cases hst : py_strip sent.text = ""
    · rw [if_pos hst, trimmed_nonempty_cons, if_pos hst]
      exact ih cur curStart cs acc hcur
    · rw [if_neg hst]
      by_cases hcond : maxSize < (if cur = "" then py_strip sent.text
          else cur ++ " " ++ py_strip sent.text).length ∧ ¬ cur = ""
      · rw [if_pos hcond]
        rcases hcs : cs.getLast? with _ | ov
        · simp only [hcs]
          refine Or.inl (le_trans ?_ ((chunkLoop_length_lower maxSize
            overlapSize pageNumber startIndex rest _ _ _ _).2 hst))
          simp only [List.length_append, List.length_cons, List.length_nil]
          omega
        · simp only [hcs]
          by_cases hov : ov.length < overlapSize
          · rw [if_pos hov]
            refine Or.inl (le_trans ?_ ((chunkLoop_length_lower maxSize
              overlapSize pageNumber startIndex rest _ _ _ _).2
              (str_ne_of_append ov (py_strip sent.text) hst)))
            simp only [List.length_append, List.length_cons,
              List.length_nil]
            omega
          · rw [if_neg hov]
            refine Or.inl (le_trans ?_ ((chunkLoop_length_lower maxSize
              overlapSize pageNumber startIndex rest _ _ _ _).2 hst))
            simp only [List.length_append, List.length_cons,
              List.length_nil]
            omega
      · rw [if_neg hcond]
        rw [if_neg hcur, if_neg hcur]
        have hpot : (cur ++ " " ++ py_strip sent.text).length ≤ maxSize :=
          by
          by_contra hgt
          push_neg at hgt
          rw [if_neg hcur] at hcond
          exact hcond ⟨hgt, hcur⟩
        have hne := str_ne_of_append cur (py_strip sent.text) hst
        rcases ih (cur ++ " " ++ py_strip sent.text) curStart
          (cs ++ [py_strip sent.text]) acc hne with hl | ⟨ch, heq, htext,
            hdisj⟩
        · exact Or.inl hl
        · refine Or.inr ⟨ch, heq, ?_, Or.inl ?_⟩
          · rw [trimmed_nonempty_cons, if_neg hst, htext,
              join_spaced_cons_append]
            rfl
          · rcases hdisj with h | h
            · exact h
            · rw [htext, h]
              simpa [join_spaced] using hpot

theorem chunkLoop_from_empty_two (maxSize overlapSize : Nat)
    (pageNumber : Option Nat) (startIndex : Nat) (sents : List SpacySent) :
    ∀ (curStart : Nat) (cs : List String) (acc : List TextChunk),
    2 ≤ (trimmed_nonempty sents).length →
    maxSize < (join_spaced (trimmed_nonempty sents)).length →
    acc.length + 2 ≤ (chunkLoop maxSize overlapSize pageNumber startIndex
      sents "" curStart cs acc).length := by
  induction sents with
  | nil =>
    intro curStart cs acc h2 _
    simp [trimmed_nonempty] at h2
  | cons sent rest ih =>
    intro curStart cs acc h2 hjoin
    rw [trimmed_nonempty_cons] at h2 hjoin
    simp only [chunkLoop]
    by_cases hst : py_strip sent.text = ""
    · rw [if_pos hst] at h2 hjoin
      rw [if_pos hst]
      exact ih curStart cs acc h2 hjoin
    · rw [if_neg hst] at h2 hjoin
      rw [if_neg hst]
      simp only [ne_eq, eq_self_iff_true, if_true, not_true, and_false,
        if_false]
      rcases chunkLoop_single_chunk maxSize overlapSize pageNumber
        startIndex rest (py_strip sent.text) sent.start_char
        (cs ++ [py_strip sent.text]) acc hst with hl | ⟨ch, heq, htext,
          hdisj⟩
      · exact hl
      · exfalso
        have htn : trimmed_nonempty rest ≠ [] := by
          intro h0
          rw [h0] at h2
          simp at h2
        rcases hdisj with hle | h0
        · rw [htext] at hle
          omega
        · exact htn h0

/-- C7 (amended): when the segmentation yields at least one sentence, every
produced chunk's length is strictly below `max_chunk_size + overlap_size +
1` provided no single (stripped) sentence exceeds the maximum — a chunk may
exceed the maximum itself only as a single over-long sentence or as an
overlap-seeded chunk (overlap sentence + space + next sentence), since the
overlap seeding is not re-checked against the maximum; and when the
segmentation yields at least two nonempty sentences whose space-joined
length exceeds the maximum, the output has more than one chunk. -/
theorem chunk_bounds_amended (seg : String → List SpacySent)
    (maxSize overlapSize : Nat) (text : String) (pageNumber : Option Nat)
    (startIndex : Nat)
    (hne : ¬ py_strip text = "") (hseg : seg text ≠ []) :
    ((∀ sent ∈ seg text, (py_strip sent.text).length ≤ maxSize) →
      ∀ c ∈ chunk_text seg maxSize overlapSize text pageNumber startIndex,
        c.text.length < maxSize + overlapSize + 1) ∧
    (2 ≤ (trimmed_nonempty (seg text)).length →
      maxSize < (join_spaced (trimmed_nonempty (seg text))).length →
      2 ≤ (chunk_text seg maxSize overlapSize text pageNumber
        startIndex).length) := by
  have hcond : ¬ (text = "" ∨ py_strip text = "") := by
    rintro (h | h)
    · apply hne
      rw [h]
      rfl
    · exact hne h
  constructor
  · intro hsent
    simp only [chunk_text]
    rw [if_neg hcond, if_neg hseg]
    exact chunkLoop_length_bound maxSize overlapSize pageNumber startIndex
      (seg text) "" 0 [] [] hsent (Or.inl rfl)
      (by intro c hc; simp at hc)
  · intro h2 hjoin
    simp only [chunk_text]
    rw [if_neg hcond, if_neg hseg]
    have h := chunkLoop_from_empty_two maxSize overlapSize pageNumber
      startIndex (seg text) 0 [] [] h2 hjoin
    simpa using h

/-- Witness for C7 (amended): with maximum 10 and overlap 50 over the
two-sentence segmentation, the joined input exceeds the maximum with both
sentences inside it, so the output has at least two chunks. -/
theorem chunk_bounds_amended_witness :
    2 ≤ (chunk_text exSegTwo 10 50 "aaaaaaaa bbbbbbbbb" none 0).length :=
  (chunk_bounds_amended exSegTwo 10 50 "aaaaaaaa bbbbbbbbb" none 0
    (by decide) (by decide)).2 (by decide) (by decide)
